import Mathlib

/-!
Shallow embedding of the Session/Profile Manager in
`src/context/AuthContext.tsx` (the `AuthProvider` component).

The component keeps local state (`user`, `userProfile`) and talks to two
external collaborators: an Auth Service (`supabase.auth`) and a Profile
Store (the `user_profiles` table).  We model both explicitly:

* `World` carries the Profile Store table (`db`), the local cached
  identity (`user`) and profile (`cache`), and a log of every `insert`
  and `update` call issued to the store, so that statements such as
  "exactly one row is inserted" or "a backfill update is issued" are
  about observable effects of a run.
* The responses of the external services are passed as explicit
  parameters (fault-injection style): a list of optional errors consumed
  one per `select` call, an optional error for `insert`/`update` calls,
  and the value returned by `auth.getUser` / `auth.getSession`.
* JavaScript numbers are modelled as `ℚ` (the code applies `Math.floor`
  to possibly fractional coin deltas); nullable / possibly-undefined
  fields are `Option`s; JavaScript truthiness (`x || y`) is modelled by
  the `jsNumOr` / `jsStrOr` helpers (`0`, `""`, `null`, `undefined` are
  falsy; arrays are always truthy), and `x ?? y` by `Option.getD`.
* `fetchUserProfile` (the spec's `resolveProfile`) is recursive; the
  recursion is bounded by an explicit `fuel` argument (fuel 0 returns
  the world unchanged; every claim is stated with enough fuel).
  Its body is `fetchUserProfileAux`, which also returns the error that
  escaped the `try` block (if any); `fetchUserProfile` itself is the
  `try/catch` wrapper that swallows the error.
-/

/-- An authenticated identity as seen from `supabase.auth`
(`user.id`, `user.email`, `user.user_metadata?.name`). -/
structure AuthUser where
  id : String
  email : Option String
  meta_name : Option String
deriving DecidableEq, Repr

/-- A row of the `user_profiles` table.  Fields that can be `null` or
absent in storage are `Option`s. -/
structure Row where
  id : String
  email : String
  name : Option String
  full_name : Option String
  class_level : ℚ
  total_coins : Option ℚ
  money : Option ℚ
  total_correct : Option ℚ
  total_wrong : Option ℚ
  total_correct_answers : Option ℚ
  avatar_id : ℚ
  unlocked_chapters : Option (List String)
  diagnostic_completed : Bool
  phone : Option String
  avatar_url : Option String
deriving DecidableEq, Repr

/-- An entry of the static chapter catalog (`chapters.json`). -/
structure Chapter where
  id : String
  class_level : ℚ
  order : ℚ
deriving DecidableEq, Repr

/-- An error returned by the Profile Store: the distinguished not-found
code `PGRST116`, or any other error. -/
inductive StoreErr where
  | notFound
  | other (msg : String)
deriving DecidableEq, Repr

/-- The data of `userData : Partial<User>` that `signUp` consumes. -/
structure PartialUser where
  name : Option String
  class_level : Option ℚ
  phone : Option String
deriving DecidableEq, Repr

/-- A partial update sent to the Profile Store (only the fields this
component ever updates through `updateUserStats` / the backfill). -/
structure PartialUpdate where
  total_correct : Option ℚ
  total_wrong : Option ℚ
  total_coins : Option ℚ
  money : Option ℚ
  total_correct_answers : Option ℚ
deriving DecidableEq, Repr

/-- The empty partial update (no field set). -/
def emptyUpdate : PartialUpdate := ⟨none, none, none, none, none⟩

/-- JavaScript `a || b` on a possibly-absent number: `null`, `undefined`
and `0` are falsy. -/
def jsNumOr (a : Option ℚ) (b : ℚ) : ℚ :=
  match a with
  | some x => if x = 0 then b else x
  | none => b

/-- JavaScript `a || b` on a possibly-absent string: `null`, `undefined`
and `""` are falsy. -/
def jsStrOr (a : Option String) (b : String) : String :=
  match a with
  | some s => if s = "" then b else s
  | none => b

/-- JavaScript `a || null` on a possibly-absent string. -/
def jsStrOrNull (a : Option String) : Option String :=
  match a with
  | some s => if s = "" then none else some s
  | none => none

/-- JavaScript `Math.floor`, as a map `ℚ → ℚ`. -/
def jsFloor (q : ℚ) : ℚ := ((⌊q⌋ : ℤ) : ℚ)

/-- Observable state of a run: the Profile Store table, the component's
local `user` / `userProfile` state, and the log of every `insert` and
`update` call issued to the store. -/
structure World where
  db : List Row
  user : Option AuthUser
  cache : Option Row
  insertCalls : List Row
  updateCalls : List (String × PartialUpdate)
deriving DecidableEq, Repr

/-- `select('*').eq('id', uid).single()`: the single row with this id,
or the `PGRST116` not-found error. -/
def dbSelectSingle (db : List Row) (uid : String) : Except StoreErr Row :=
  match db.filter (fun r => decide (r.id = uid)) with
  | [r] => .ok r
  | _ => .error .notFound

/-- `insert(row)`: fails on a duplicate key, otherwise appends. -/
def dbInsert (db : List Row) (r : Row) : Except StoreErr (List Row) :=
  if db.any (fun q => decide (q.id = r.id)) then .error (.other "duplicate key")
  else .ok (db ++ [r])

/-- Overwrite exactly the fields present in a partial update. -/
def updField (u old : Option ℚ) : Option ℚ :=
  match u with
  | some v => some v
  | none => old

/-- Apply a partial update to a row. -/
def applyUpdate (r : Row) (u : PartialUpdate) : Row :=
  { r with
    total_correct := updField u.total_correct r.total_correct
    total_wrong := updField u.total_wrong r.total_wrong
    total_coins := updField u.total_coins r.total_coins
    money := updField u.money r.money
    total_correct_answers := updField u.total_correct_answers r.total_correct_answers }

/-- `update(fields).eq('id', uid)`: partial update of every row with this id. -/
def dbUpdate (db : List Row) (uid : String) (u : PartialUpdate) : List Row :=
  db.map (fun r => if r.id = uid then applyUpdate r u else r)

/-- One `select` call: an injected fault (head of the fault list) takes
precedence over the table's own answer. -/
def selectResult (faults : List (Option StoreErr)) (db : List Row) (uid : String) :
    Except StoreErr Row :=
  match faults with
  | some e :: _ => .error e
  | none :: _ => dbSelectSingle db uid
  | [] => dbSelectSingle db uid

/-- Faults remaining after one `select` call. -/
def selectRest (faults : List (Option StoreErr)) : List (Option StoreErr) :=
  match faults with
  | _ :: rest => rest
  | [] => []

/-- One `insert` call: an injected fault takes precedence over the
table's own duplicate-key check. -/
def insertResult (insFault : Option StoreErr) (db : List Row) (r : Row) :
    Except StoreErr (List Row) :=
  match insFault with
  | some e => .error e
  | none => dbInsert db r

/-- `chaptersData.find(c => c.class_level === lvl && c.order === 1)`. -/
def firstChapterFor (catalog : List Chapter) (lvl : ℚ) : Option Chapter :=
  catalog.find? (fun c => decide (c.class_level = lvl) && decide (c.order = (1 : ℚ)))

/-- The default profile row inserted by `fetchUserProfile` when the
store reports not-found (the create-on-missing self-heal): class level 1,
100 starting coins, zero counters, avatar 1, and the first chapter for
class level 1 (or the hardcoded `class9_ch1` fallback). -/
def selfHealRow (catalog : List Chapter) (u : AuthUser) : Row :=
  { id := u.id
    email := jsStrOr u.email ""
    name := some (jsStrOr u.meta_name "")
    full_name := none
    class_level := 1
    total_coins := some 100
    money := none
    total_correct := some 0
    total_wrong := some 0
    total_correct_answers := none
    avatar_id := 1
    unlocked_chapters := some (match firstChapterFor catalog 1 with
      | some c => [c.id]
      | none => ["class9_ch1"])
    diagnostic_completed := false
    phone := none
    avatar_url := none }

/-- `data.total_coins ?? data.money ?? 100` (nullish coalescing). -/
def reconciledCoins (data : Row) : ℚ :=
  (data.total_coins).getD ((data.money).getD 100)

/-- The `updatedData` reconciled view computed in `fetchUserProfile`'s
found branch (never cached; only its `total_coins` feeds the backfill). -/
def reconciledView (data : Row) : Row :=
  { data with
    total_coins := some (reconciledCoins data)
    unlocked_chapters := some ((data.unlocked_chapters).getD ["class9_ch1"])
    name := some (jsStrOr data.name (jsStrOr data.full_name "Student")) }

/-- The backfill update `update({ total_coins: updatedData.total_coins })`
issued when the stored `total_coins` was null/undefined. -/
def backfillUpdate (data : Row) : PartialUpdate :=
  { emptyUpdate with total_coins := some (reconciledCoins data) }

/-- Body of `fetchUserProfile` (the `try` block).  Returns the final
world together with the error that escaped the block, if any; the
recursive self-call goes through the catching wrapper, so it never
contributes an error.  Fuel bounds the recursion depth. -/
def fetchUserProfileAux : ℕ → List Chapter → Option AuthUser →
    List (Option StoreErr) → Option StoreErr → String → World →
    World × Option StoreErr
  | 0, _, _, _, _, _, w => (w, none)
  | Nat.succ fuel, catalog, getUserResp, selFaults, insFault, uid, w =>
    match selectResult selFaults w.db uid with
    | .error .notFound =>
      match getUserResp with
      | some u =>
        let row := selfHealRow catalog u
        let w1 := { w with insertCalls := w.insertCalls ++ [row] }
        match insertResult insFault w1.db row with
        | .error e => (w1, some e)
        | .ok db2 =>
          ((fetchUserProfileAux fuel catalog getUserResp (selectRest selFaults) insFault uid
              { w1 with db := db2 }).1, none)
      | none => (w, none)
    | .error e => (w, some e)
    | .ok data =>
      let w1 :=
        if data.total_coins = none then
          { w with db := dbUpdate w.db uid (backfillUpdate data),
                   updateCalls := w.updateCalls ++ [(uid, backfillUpdate data)] }
        else w
      ({ w1 with cache := some data }, none)

/-- `fetchUserProfile` (the spec's `resolveProfile`): the body wrapped in
the `try/catch` that logs and swallows every error. -/
def fetchUserProfile (fuel : ℕ) (catalog : List Chapter)
    (getUserResp : Option AuthUser) (selFaults : List (Option StoreErr))
    (insFault : Option StoreErr) (uid : String) (w : World) : World :=
  (fetchUserProfileAux fuel catalog getUserResp selFaults insFault uid w).1

/-- Result of an operation whose errors propagate to the caller. -/
structure OpResult where
  world : World
  err : Option StoreErr
deriving DecidableEq, Repr

/-- `chaptersData.find(c => c.class_level === userData.class_level && c.order === 1)`
in `signUp`: a strict comparison against a possibly-undefined class level. -/
def signUpFirstChapter (catalog : List Chapter) (lvl : Option ℚ) : Option Chapter :=
  catalog.find? (fun c =>
    match lvl with
    | some l => decide (c.class_level = l) && decide (c.order = (1 : ℚ))
    | none => false)

/-- The profile row `signUp` inserts explicitly: starting `total_coins` 0
but legacy `money` 100, and `unlocked_chapters` falling back to the
EMPTY sequence when the catalog has no first chapter for the class. -/
def signUpRow (catalog : List Chapter) (email : String)
    (userData : PartialUser) (u : AuthUser) : Row :=
  { id := u.id
    email := email
    name := some (jsStrOr userData.name "")
    full_name := some (jsStrOr userData.name "")
    class_level := jsNumOr userData.class_level 1
    total_coins := some 0
    money := some 100
    total_correct := some 0
    total_wrong := some 0
    total_correct_answers := none
    avatar_id := 1
    unlocked_chapters := some (match signUpFirstChapter catalog userData.class_level with
      | some c => [c.id]
      | none => [])
    diagnostic_completed := false
    phone := jsStrOrNull userData.phone
    avatar_url := none }

/-- `signUp(email, password, userData)`: create credentials at the Auth
Service (response passed in as `authResp`), insert the profile row, then
run `fetchUserProfile` on the new id.  Auth and insert errors propagate. -/
def signUp (catalog : List Chapter) (authResp : Except StoreErr (Option AuthUser))
    (insFault : Option StoreErr) (fetchFuel : ℕ) (fetchGetUser : Option AuthUser)
    (fetchSelFaults : List (Option StoreErr)) (fetchInsFault : Option StoreErr)
    (email : String) (userData : PartialUser) (w : World) : OpResult :=
  match authResp with
  | .error e => ⟨w, some e⟩
  | .ok none => ⟨w, none⟩
  | .ok (some u) =>
    let row := signUpRow catalog email userData u
    let w1 := { w with insertCalls := w.insertCalls ++ [row] }
    match insertResult insFault w1.db row with
    | .error e => ⟨w1, some e⟩
    | .ok db2 =>
      ⟨fetchUserProfile fetchFuel catalog fetchGetUser fetchSelFaults fetchInsFault
          u.id { w1 with db := db2 }, none⟩

/-- `signOut()`: ask the Auth Service for the session, invalidate it when
present, and clear the local identity and profile on every path — the
`catch` clears them too and swallows the error. -/
def signOut (sessionResp : Except StoreErr (Option Unit))
    (signOutResp : Option StoreErr) (w : World) : OpResult :=
  let cleared := { w with user := none, cache := none }
  match sessionResp with
  | .error _ => ⟨cleared, none⟩
  | .ok none => ⟨cleared, none⟩
  | .ok (some _) =>
    match signOutResp with
    | some _ => ⟨cleared, none⟩
    | none => ⟨cleared, none⟩

/-- The row of new totals `updateUserStats` writes, computed additively
from the cached profile with JavaScript truthiness (`|| 0`, and
`total_coins || money || 0` for the current coins), the coin sum floored. -/
def statsUpdate (p : Option Row) (correct wrong money : ℚ) : PartialUpdate :=
  let newTotalCorrect := jsNumOr (p.bind Row.total_correct) 0 + correct
  let newTotalWrong := jsNumOr (p.bind Row.total_wrong) 0 + wrong
  let currentCoins := jsNumOr (p.bind Row.total_coins) (jsNumOr (p.bind Row.money) 0)
  let newTotalCoins := jsFloor (currentCoins + money)
  ⟨some newTotalCorrect, some newTotalWrong, some newTotalCoins,
    some newTotalCoins, some newTotalCorrect⟩

/-- Result of `updateUserStats`: final world, the propagated error if the
write failed, and whether the delayed (500ms) re-fetch was scheduled. -/
structure StatsResult where
  world : World
  err : Option StoreErr
  refetchScheduled : Bool
deriving DecidableEq, Repr

/-- `updateUserStats(correct, wrong, money)`: no-op without an identity;
otherwise write the new totals (dual `total_coins`/`money` and
`total_correct`/`total_correct_answers`), throw on write error, and only
then apply the optimistic cache update and schedule the 500ms re-fetch. -/
def updateUserStats (updFault : Option StoreErr) (correct wrong money : ℚ)
    (w : World) : StatsResult :=
  match w.user with
  | none => ⟨w, none, false⟩
  | some u =>
    let upd := statsUpdate w.cache correct wrong money
    let w1 := { w with updateCalls := w.updateCalls ++ [(u.id, upd)] }
    match updFault with
    | some e => ⟨w1, some e, false⟩
    | none =>
      let w2 := { w1 with db := dbUpdate w1.db u.id upd }
      let w3 := { w2 with cache := w2.cache.map (fun prev => applyUpdate prev upd) }
      ⟨w3, none, true⟩

/-- Modelled from the spec words of claim C2, for comparison with the
code: the claimed "old total_coins" treats a missing field as zero and
falls back to the legacy `money` field only when `total_coins` is
ABSENT (the code also falls back when it is present but 0). -/
def claimOldCoins (p : Option Row) : ℚ :=
  match p.bind Row.total_coins with
  | some c => c
  | none => (p.bind Row.money).getD 0

/-! ## Concrete fixtures used by witnesses and counterexamples -/

/-- A concrete identity. -/
def uA : AuthUser := ⟨"u1", some "a@x.com", some "Alice"⟩

/-- A concrete identity for the class-9 sign-up scenario. -/
def u9 : AuthUser := ⟨"u9", some "s@x.com", some "Stu"⟩

/-- The empty world: empty table, signed-out, no calls issued. -/
def w0 : World := ⟨[], none, none, [], []⟩

/-- A catalog holding the first chapter for class level 1. -/
def cat1 : List Chapter := [⟨"class1_ch1", 1, 1⟩]

/-- A catalog holding only the first chapter for class level 9. -/
def cat9 : List Chapter := [⟨"class9_ch1", 9, 1⟩]

/-- Sign-up data requesting class level 9. -/
def udata9 : PartialUser := ⟨some "Stu", some 9, none⟩

/-- Sign-up data requesting class level 10 (no catalog chapter). -/
def udata10 : PartialUser := ⟨some "Stu", some 10, none⟩

/-- A stored row whose `total_coins` is null and whose `money` is 75. -/
def row75 : Row :=
  ⟨"u1", "a@x.com", some "Alice", none, 1, none, some 75, some 0, some 0, none, 1,
    some ["class9_ch1"], false, none, none⟩

/-- A world whose table holds only `row75`. -/
def w75 : World := ⟨[row75], none, none, [], []⟩

/-- A cached row with `total_coins = 0` (falsy) but `money = 75`. -/
def pC2 : Row :=
  ⟨"u1", "a@x.com", some "Alice", none, 1, some 0, some 75, some 5, some 3, none, 1,
    some [], false, none, none⟩

/-- A signed-in world caching `pC2`. -/
def wC2 : World := ⟨[pC2], some uA, some pC2, [], []⟩

/-- The cached row of the spec's stat-update scenario (5 correct, 3 wrong,
50 coins). -/
def pS : Row :=
  ⟨"u1", "a@x.com", some "Alice", none, 1, some 50, some 50, some 5, some 3, none, 1,
    some [], false, none, none⟩

/-- A signed-in world caching `pS`. -/
def wS : World := ⟨[pS], some uA, some pS, [], []⟩

/-! ## One-step unfolding lemmas for `fetchUserProfileAux` -/

/-- Found branch: the raw row is cached; the backfill runs iff the stored
`total_coins` is null. -/
theorem aux_select_ok (fuel : ℕ) (catalog : List Chapter) (gu : Option AuthUser)
    (selFaults : List (Option StoreErr)) (insFault : Option StoreErr)
    (uid : String) (w : World) (data : Row)
    (h : selectResult selFaults w.db uid = .ok data) :
    fetchUserProfileAux (fuel + 1) catalog gu selFaults insFault uid w =
      ({ (if data.total_coins = none then
            { w with db := dbUpdate w.db uid (backfillUpdate data),
                     updateCalls := w.updateCalls ++ [(uid, backfillUpdate data)] }
          else w) with cache := some data }, none) := by
  cases gu with
  | none =>
    show fetchUserProfileAux (Nat.succ fuel) catalog none selFaults insFault uid w = _
    rw [fetchUserProfileAux]
    rw [h]
  | some u =>
    show fetchUserProfileAux (Nat.succ fuel) catalog (some u) selFaults insFault uid w = _
    rw [fetchUserProfileAux]
    rw [h]

/-- Other-error branch: the error escapes the `try` block and the world is
untouched. -/
theorem aux_select_other (fuel : ℕ) (catalog : List Chapter) (gu : Option AuthUser)
    (selFaults : List (Option StoreErr)) (insFault : Option StoreErr)
    (uid : String) (w : World) (m : String)
    (h : selectResult selFaults w.db uid = .error (.other m)) :
    fetchUserProfileAux (fuel + 1) catalog gu selFaults insFault uid w =
      (w, some (.other m)) := by
  cases gu with
  | none =>
    show fetchUserProfileAux (Nat.succ fuel) catalog none selFaults insFault uid w = _
    rw [fetchUserProfileAux]
    rw [h]
  | some u =>
    show fetchUserProfileAux (Nat.succ fuel) catalog (some u) selFaults insFault uid w = _
    rw [fetchUserProfileAux]
    rw [h]

/-- Not-found branch with no current user: nothing at all happens. -/
theorem aux_notFound_noUser (fuel : ℕ) (catalog : List Chapter)
    (selFaults : List (Option StoreErr)) (insFault : Option StoreErr)
    (uid : String) (w : World)
    (h : selectResult selFaults w.db uid = .error .notFound) :
    fetchUserProfileAux (fuel + 1) catalog none selFaults insFault uid w = (w, none) := by
  show fetchUserProfileAux (Nat.succ fuel) catalog none selFaults insFault uid w = _
  rw [fetchUserProfileAux]
  rw [h]

/-- Not-found branch, insert fails: the attempted insert is logged, the
error escapes the `try` block, nothing else changes. -/
theorem aux_notFound_insertErr (fuel : ℕ) (catalog : List Chapter) (u : AuthUser)
    (selFaults : List (Option StoreErr)) (insFault : Option StoreErr)
    (uid : String) (w : World) (e : StoreErr)
    (h : selectResult selFaults w.db uid = .error .notFound)
    (hins : insertResult insFault w.db (selfHealRow catalog u) = .error e) :
    fetchUserProfileAux (fuel + 1) catalog (some u) selFaults insFault uid w =
      ({ w with insertCalls := w.insertCalls ++ [selfHealRow catalog u] }, some e) := by
  show fetchUserProfileAux (Nat.succ fuel) catalog (some u) selFaults insFault uid w = _
  rw [fetchUserProfileAux]
  rw [h]
  simp only [hins]

/-- Not-found branch, insert succeeds: log the insert, commit it, and
recurse (through the catching wrapper) on the updated table. -/
theorem aux_notFound_insertOk (fuel : ℕ) (catalog : List Chapter) (u : AuthUser)
    (selFaults : List (Option StoreErr)) (insFault : Option StoreErr)
    (uid : String) (w : World) (db2 : List Row)
    (h : selectResult selFaults w.db uid = .error .notFound)
    (hins : insertResult insFault w.db (selfHealRow catalog u) = .ok db2) :
    fetchUserProfileAux (fuel + 1) catalog (some u) selFaults insFault uid w =
      ((fetchUserProfileAux fuel catalog (some u) (selectRest selFaults) insFault uid
          { w with insertCalls := w.insertCalls ++ [selfHealRow catalog u],
                   db := db2 }).1, none) := by
  show fetchUserProfileAux (Nat.succ fuel) catalog (some u) selFaults insFault uid w = _
  rw [fetchUserProfileAux]
  rw [h]
  simp only [hins]

/-! ## Claim theorems -/

/-- Claim C4: for every call to `signOut`, whatever the Auth Service does
(session lookup fails, invalidation fails, or no active session), the
local identity and profile are cleared to null and no error reaches the
caller. -/
theorem signOut_clears_locally_never_throws (sessionResp : Except StoreErr (Option Unit))
    (signOutResp : Option StoreErr) (w : World) :
    signOut sessionResp signOutResp w = ⟨{ w with user := none, cache := none }, none⟩ := by
  cases sessionResp with
  | error e => rfl
  | ok s =>
    cases s with
    | none => rfl
    | some u => cases signOutResp <;> rfl

/-- Claim C6: when `fetchUserProfile` finds an existing row, the value it
caches is exactly the raw fetched record `data`, not the reconciled view
`reconciledView data`. -/
theorem fetchUserProfile_caches_raw_record (fuel : ℕ) (catalog : List Chapter)
    (gu : Option AuthUser) (selFaults : List (Option StoreErr)) (insFault : Option StoreErr)
    (uid : String) (w : World) (data : Row)
    (h : selectResult selFaults w.db uid = .ok data) :
    (fetchUserProfile (fuel + 1) catalog gu selFaults insFault uid w).cache = some data := by
  unfold fetchUserProfile
  rw [aux_select_ok fuel catalog gu selFaults insFault uid w data h]

/-- Witness for C6: fetching `row75` (whose `total_coins` is null, so raw
record and reconciled view differ) caches the raw record. -/
theorem fetchUserProfile_caches_raw_record_witness :
    selectResult [] w75.db "u1" = .ok row75 ∧
    (fetchUserProfile 1 cat1 none [] none "u1" w75).cache = some row75 :=
  ⟨by rfl, fetchUserProfile_caches_raw_record 0 cat1 none [] none "u1" w75 row75 (by rfl)⟩

/-- Claim C10: in the create-on-missing branch, when the Auth Service
reports no current user, `fetchUserProfile` completes with no insert, no
update, no cache change and no surfaced error: the world is untouched
and the body raises nothing. -/
theorem fetchUserProfile_noUser_noop (fuel : ℕ) (catalog : List Chapter)
    (selFaults : List (Option StoreErr)) (insFault : Option StoreErr)
    (uid : String) (w : World)
    (h : selectResult selFaults w.db uid = .error .notFound) :
    fetchUserProfileAux (fuel + 1) catalog none selFaults insFault uid w = (w, none) ∧
    fetchUserProfile (fuel + 1) catalog none selFaults insFault uid w = w := by
  have h1 := aux_notFound_noUser fuel catalog selFaults insFault uid w h
  refine ⟨h1, ?_⟩
  unfold fetchUserProfile
  rw [h1]

/-- Witness for C10 on the empty table. -/
theorem fetchUserProfile_noUser_noop_witness :
    selectResult [] w0.db "u1" = .error .notFound ∧
    fetchUserProfileAux 1 [] none [] none "u1" w0 = (w0, none) ∧
    fetchUserProfile 1 [] none [] none "u1" w0 = w0 :=
  ⟨by rfl, (fetchUserProfile_noUser_noop 0 [] [] none "u1" w0 (by rfl)).1,
    (fetchUserProfile_noUser_noop 0 [] [] none "u1" w0 (by rfl)).2⟩

/-- Claim C9: `fetchUserProfile` hands its caller the body's world with
every raised error swallowed (first conjunct), and whenever the body did
raise an error — a non-not-found query error, or a failure of the
self-heal insert — the cached profile and the table are left in their
prior state. -/
theorem fetchUserProfile_swallows_errors (fuel : ℕ) (catalog : List Chapter)
    (gu : Option AuthUser) (selFaults : List (Option StoreErr)) (insFault : Option StoreErr)
    (uid : String) (w : World) :
    fetchUserProfile fuel catalog gu selFaults insFault uid w =
      (fetchUserProfileAux fuel catalog gu selFaults insFault uid w).1 ∧
    ((fetchUserProfileAux fuel catalog gu selFaults insFault uid w).2 ≠ none →
      (fetchUserProfileAux fuel catalog gu selFaults insFault uid w).1.cache = w.cache ∧
      (fetchUserProfileAux fuel catalog gu selFaults insFault uid w).1.db = w.db) := by
  refine ⟨rfl, ?_⟩
  intro hne
  cases fuel with
  | zero => simp [fetchUserProfileAux] at hne
  | succ n =>
    cases hsel : selectResult selFaults w.db uid with
    | ok data =>
      rw [aux_select_ok n catalog gu selFaults insFault uid w data hsel] at hne
      simp at hne
    | error e =>
      cases e with
      | notFound =>
        cases gu with
        | none =>
          rw [aux_notFound_noUser n catalog selFaults insFault uid w hsel] at hne
          simp at hne
        | some u =>
          cases hins : insertResult insFault w.db (selfHealRow catalog u) with
          | ok db2 =>
            rw [aux_notFound_insertOk n catalog u selFaults insFault uid w db2 hsel hins] at hne
            simp at hne
          | error e2 =>
            rw [aux_notFound_insertErr n catalog u selFaults insFault uid w e2 hsel hins]
            exact ⟨rfl, rfl⟩
      | other m =>
        rw [aux_select_other n catalog gu selFaults insFault uid w m hsel]
        exact ⟨rfl, rfl⟩

/-- Witness for C9: an injected non-not-found query error is swallowed
and leaves cache and table untouched. -/
theorem fetchUserProfile_swallows_errors_witness :
    (fetchUserProfileAux 1 [] none [some (StoreErr.other "boom")] none "u1" w75).2 ≠ none ∧
    fetchUserProfile 1 [] none [some (StoreErr.other "boom")] none "u1" w75 =
      (fetchUserProfileAux 1 [] none [some (StoreErr.other "boom")] none "u1" w75).1 ∧
    (fetchUserProfileAux 1 [] none [some (StoreErr.other "boom")] none "u1" w75).1.cache = w75.cache ∧
    (fetchUserProfileAux 1 [] none [some (StoreErr.other "boom")] none "u1" w75).1.db = w75.db := by
  have h := fetchUserProfile_swallows_errors 1 [] none [some (StoreErr.other "boom")] none "u1" w75
  exact ⟨by decide, h.1, h.2 (by decide)⟩

/-- Claim C1: for an identity with no profile row (the store answers
not-found), `fetchUserProfile` logs exactly one insert — the default row
with class_level 1, 100 coins, zero counters, avatar 1 and the singleton
first-chapter (or `class9_ch1` fallback) unlocked list — commits exactly
that row to the table, and the final cached profile is that persisted
row as found again by the recursive re-fetch. -/
theorem fetchUserProfile_createOnMissing (n : ℕ) (catalog : List Chapter)
    (u : AuthUser) (uid : String) (w : World)
    (hid : u.id = uid)
    (hmiss : w.db.filter (fun r => decide (r.id = uid)) = []) :
    fetchUserProfile (n + 2) catalog (some u) [] none uid w =
      { w with db := w.db ++ [selfHealRow catalog u],
               insertCalls := w.insertCalls ++ [selfHealRow catalog u],
               cache := some (selfHealRow catalog u) } ∧
    (selfHealRow catalog u).class_level = 1 ∧
    (selfHealRow catalog u).total_coins = some 100 ∧
    (selfHealRow catalog u).total_correct = some 0 ∧
    (selfHealRow catalog u).total_wrong = some 0 ∧
    (selfHealRow catalog u).avatar_id = 1 ∧
    (selfHealRow catalog u).unlocked_chapters = some (match firstChapterFor catalog 1 with
      | some c => [c.id]
      | none => ["class9_ch1"]) := by
  refine ⟨?_, rfl, rfl, rfl, rfl, rfl, rfl⟩
  have hrowid : (selfHealRow catalog u).id = uid := hid
  have h1 : selectResult [] w.db uid = .error .notFound := by
    unfold selectResult dbSelectSingle
    rw [hmiss]
  have hany : w.db.any (fun q => decide (q.id = (selfHealRow catalog u).id)) = false := by
    rw [List.any_eq_false]
    intro q hq
    have h2 := List.filter_eq_nil_iff.mp hmiss q hq
    simpa [hrowid] using h2
  have hins : insertResult none w.db (selfHealRow catalog u) =
      .ok (w.db ++ [selfHealRow catalog u]) := by
    unfold insertResult dbInsert
    rw [hany]
    simp
  have step1 := aux_notFound_insertOk (n + 1) catalog u [] none uid w
    (w.db ++ [selfHealRow catalog u]) h1 hins
  have h3 : selectResult (selectRest ([] : List (Option StoreErr)))
      (w.db ++ [selfHealRow catalog u]) uid = .ok (selfHealRow catalog u) := by
    show selectResult [] (w.db ++ [selfHealRow catalog u]) uid = _
    unfold selectResult dbSelectSingle
    rw [List.filter_append, hmiss]
    simp [hrowid]
  show (fetchUserProfileAux (n + 1 + 1) catalog (some u) [] none uid w).1 = _
  rw [step1]
  show (fetchUserProfileAux (n + 1) catalog (some u) (selectRest []) none uid
    { w with insertCalls := w.insertCalls ++ [selfHealRow catalog u],
             db := w.db ++ [selfHealRow catalog u] }).1 = _
  cases n with
  | zero =>
    rw [aux_select_ok 0 catalog (some u) (selectRest []) none uid _ (selfHealRow catalog u) h3]
    simp [selfHealRow]
  | succ m =>
    rw [aux_select_ok (m + 1) catalog (some u) (selectRest []) none uid _ (selfHealRow catalog u) h3]
    simp [selfHealRow]

/-- Witness for C1: a fresh identity on the empty table. -/
theorem fetchUserProfile_createOnMissing_witness :
    uA.id = "u1" ∧
    w0.db.filter (fun r => decide (r.id = "u1")) = [] ∧
    fetchUserProfile 2 cat1 (some uA) [] none "u1" w0 =
      { w0 with db := w0.db ++ [selfHealRow cat1 uA],
                insertCalls := w0.insertCalls ++ [selfHealRow cat1 uA],
                cache := some (selfHealRow cat1 uA) } :=
  ⟨rfl, rfl, (fetchUserProfile_createOnMissing 0 cat1 uA "u1" w0 rfl rfl).1⟩

/-- Counterexample to claim C5 as stated: fetching a stored row with
`total_coins` null and `money` 75 issues the backfill update with
`total_coins: 75`, but the resulting cached profile is the raw record,
whose `total_coins` is still null — NOT 75. -/
theorem fetchUserProfile_backfill_counterexample :
    (fetchUserProfile 1 cat1 none [] none "u1" w75).updateCalls =
      [("u1", { emptyUpdate with total_coins := some 75 })] ∧
    (fetchUserProfile 1 cat1 none [] none "u1" w75).cache = some row75 ∧
    row75.total_coins = none ∧
    ¬ ((fetchUserProfile 1 cat1 none [] none "u1" w75).cache.bind Row.total_coins
        = some 75) := by
  decide

/-- Claim C5 amended: with stored `total_coins` null and `money` 75, the
reconciled value 75 is written back to the store (the persisted row ends
with `total_coins = 75`) before the record is accepted, but the cached
profile is the raw fetched record, whose `total_coins` remains null. -/
theorem fetchUserProfile_backfill_amended (fuel : ℕ) (catalog : List Chapter)
    (gu : Option AuthUser) (uid : String) (row : Row) (w : World)
    (hid : row.id = uid) (hdb : w.db = [row])
    (hc : row.total_coins = none) (hm : row.money = some 75) :
    fetchUserProfile (fuel + 1) catalog gu [] none uid w =
      { w with db := [applyUpdate row (backfillUpdate row)],
               updateCalls := w.updateCalls ++ [(uid, backfillUpdate row)],
               cache := some row } ∧
    (backfillUpdate row).total_coins = some 75 ∧
    (applyUpdate row (backfillUpdate row)).total_coins = some 75 ∧
    row.total_coins = none := by
  have h75 : reconciledCoins row = 75 := by
    unfold reconciledCoins
    rw [hc, hm]
    rfl
  have hsel : selectResult [] w.db uid = .ok row := by
    rw [hdb]
    unfold selectResult dbSelectSingle
    simp [hid]
  refine ⟨?_, by simp [backfillUpdate, h75], by simp [applyUpdate, updField, backfillUpdate, h75], hc⟩
  unfold fetchUserProfile
  rw [aux_select_ok fuel catalog gu [] none uid w row hsel]
  rw [if_pos hc]
  rw [hdb]
  simp [dbUpdate, hid]

/-- Witness for the amended C5 at the concrete scenario row. -/
theorem fetchUserProfile_backfill_amended_witness :
    row75.id = "u1" ∧ w75.db = [row75] ∧ row75.total_coins = none ∧
    row75.money = some 75 ∧
    (fetchUserProfile 1 cat1 none [] none "u1" w75 =
      { w75 with db := [applyUpdate row75 (backfillUpdate row75)],
                 updateCalls := w75.updateCalls ++ [("u1", backfillUpdate row75)],
                 cache := some row75 } ∧
     (backfillUpdate row75).total_coins = some 75 ∧
     (applyUpdate row75 (backfillUpdate row75)).total_coins = some 75 ∧
     row75.total_coins = none) :=
  ⟨rfl, rfl, rfl, rfl,
    fetchUserProfile_backfill_amended 0 cat1 none "u1" row75 w75 rfl rfl rfl rfl⟩

/-- Counterexample to claim C2 as stated: on a cached profile with
`total_coins` present and equal to 0 and `money` 75, the code writes
`total_coins = floor(75 + 10) = 85` (JavaScript `||` treats 0 as falsy
and falls through to `money`), while the claim's "old total_coins +
moneyDelta" predicts `floor(0 + 10) = 10`. -/
theorem updateUserStats_coins_counterexample :
    ((updateUserStats none 2 1 10 wC2).world.updateCalls.map
      (fun x => x.2.total_coins)) = [some 85] ∧
    jsFloor (claimOldCoins wC2.cache + 10) = 10 ∧
    ¬ ((updateUserStats none 2 1 10 wC2).world.updateCalls.map
      (fun x => x.2.total_coins)) = [some (jsFloor (claimOldCoins wC2.cache + 10))] := by
  have h1 : ((updateUserStats none 2 1 10 wC2).world.updateCalls.map
      (fun x => x.2.total_coins)) = [some 85] := by
    norm_num [updateUserStats, statsUpdate, wC2, pC2, uA, jsNumOr, jsFloor]
  have h2 : jsFloor (claimOldCoins wC2.cache + 10) = 10 := by
    norm_num [claimOldCoins, wC2, pC2, jsFloor]
  refine ⟨h1, h2, ?_⟩
  rw [h1, h2]
  norm_num

/-- Claim C2 amended: with an identity set, the written row satisfies
new total_correct = old total_correct + correctDelta and likewise for
total_wrong (missing fields as zero), new total_coins =
floor(current coins + moneyDelta) where the current coins fall back from
`total_coins` to `money` to 0 under JavaScript truthiness (so also when
`total_coins` is 0), the written `money` equals the written
`total_coins`, and after a successful write every stored row for this
identity has `total_coins = money`. -/
theorem updateUserStats_additive_amended (updFault : Option StoreErr)
    (correct wrong money : ℚ) (u : AuthUser) (w : World)
    (hu : w.user = some u) :
    (updateUserStats updFault correct wrong money w).world.updateCalls =
      w.updateCalls ++ [(u.id, statsUpdate w.cache correct wrong money)] ∧
    (statsUpdate w.cache correct wrong money).total_correct =
      some (jsNumOr (w.cache.bind Row.total_correct) 0 + correct) ∧
    (statsUpdate w.cache correct wrong money).total_wrong =
      some (jsNumOr (w.cache.bind Row.total_wrong) 0 + wrong) ∧
    (statsUpdate w.cache correct wrong money).total_coins =
      some (jsFloor (jsNumOr (w.cache.bind Row.total_coins)
        (jsNumOr (w.cache.bind Row.money) 0) + money)) ∧
    (statsUpdate w.cache correct wrong money).money =
      (statsUpdate w.cache correct wrong money).total_coins ∧
    (updFault = none → ∀ r ∈ (updateUserStats updFault correct wrong money w).world.db,
      r.id = u.id → r.total_coins = r.money) := by
  refine ⟨?_, rfl, rfl, rfl, rfl, ?_⟩
  · unfold updateUserStats
    rw [hu]
    cases updFault <;> rfl
  · intro hf r hr hrid
    subst hf
    have hdb : (updateUserStats none correct wrong money w).world.db =
        dbUpdate w.db u.id (statsUpdate w.cache correct wrong money) := by
      unfold updateUserStats
      rw [hu]
    rw [hdb] at hr
    unfold dbUpdate at hr
    rw [List.mem_map] at hr
    obtain ⟨q, hq, hrq⟩ := hr
    by_cases hqid : q.id = u.id
    · rw [if_pos hqid] at hrq
      subst hrq
      rfl
    · rw [if_neg hqid] at hrq
      subst hrq
      exact absurd hrid hqid

/-- Witness for the amended C2 at the spec's scenario:
updateUserStats(2, 1, 10.7) on 5 correct / 3 wrong / 50 coins writes
7 / 4 / 60 with money mirrored. -/
theorem updateUserStats_additive_amended_witness :
    wS.user = some uA ∧
    statsUpdate wS.cache 2 1 (10.7 : ℚ) = ⟨some 7, some 4, some 60, some 60, some 7⟩ ∧
    ((updateUserStats none 2 1 (10.7 : ℚ) wS).world.updateCalls =
      wS.updateCalls ++ [(uA.id, statsUpdate wS.cache 2 1 (10.7 : ℚ))] ∧
    (statsUpdate wS.cache 2 1 (10.7 : ℚ)).total_correct =
      some (jsNumOr (wS.cache.bind Row.total_correct) 0 + 2) ∧
    (statsUpdate wS.cache 2 1 (10.7 : ℚ)).total_wrong =
      some (jsNumOr (wS.cache.bind Row.total_wrong) 0 + 1) ∧
    (statsUpdate wS.cache 2 1 (10.7 : ℚ)).total_coins =
      some (jsFloor (jsNumOr (wS.cache.bind Row.total_coins)
        (jsNumOr (wS.cache.bind Row.money) 0) + (10.7 : ℚ))) ∧
    (statsUpdate wS.cache 2 1 (10.7 : ℚ)).money =
      (statsUpdate wS.cache 2 1 (10.7 : ℚ)).total_coins ∧
    ((none : Option StoreErr) = none →
      ∀ r ∈ (updateUserStats none 2 1 (10.7 : ℚ) wS).world.db,
      r.id = uA.id → r.total_coins = r.money)) :=
  ⟨rfl, by norm_num [statsUpdate, wS, pS, jsNumOr, jsFloor],
    updateUserStats_additive_amended none 2 1 (10.7 : ℚ) uA wS rfl⟩

/-- Counterexample to claim C3 as stated: signing up with class_level 10
against a catalog with no class-10 chapter inserts a profile row whose
`unlocked_chapters` is the EMPTY sequence. -/
theorem signUp_emptyChapters_counterexample :
    ((signUp cat9 (.ok (some u9)) none 1 none [] none "s@x.com" udata10
        w0).world.insertCalls.map Row.unlocked_chapters) = [some []] := by
  decide

/-- Every row `fetchUserProfile` ever passes to `insert` is the self-heal
default row for the user the Auth Service reported. -/
theorem fetch_insertRows (fuel : ℕ) : ∀ (catalog : List Chapter) (gu : Option AuthUser)
    (selFaults : List (Option StoreErr)) (insFault : Option StoreErr) (uid : String)
    (w : World) (r : Row),
    r ∈ (fetchUserProfileAux fuel catalog gu selFaults insFault uid w).1.insertCalls →
    r ∈ w.insertCalls ∨ ∃ u, gu = some u ∧ r = selfHealRow catalog u := by
  induction fuel with
  | zero =>
    intro catalog gu selFaults insFault uid w r h
    exact Or.inl h
  | succ n ih =>
    intro catalog gu selFaults insFault uid w r h
    cases hsel : selectResult selFaults w.db uid with
    | ok data =>
      rw [aux_select_ok n catalog gu selFaults insFault uid w data hsel] at h
      split at h
      · exact Or.inl h
      · exact Or.inl h
    | error e =>
      cases e with
      | notFound =>
        cases gu with
        | none =>
          rw [aux_notFound_noUser n catalog selFaults insFault uid w hsel] at h
          exact Or.inl h
        | some u =>
          cases hins : insertResult insFault w.db (selfHealRow catalog u) with
          | error e2 =>
            rw [aux_notFound_insertErr n catalog u selFaults insFault uid w e2 hsel hins] at h
            have h2 : r ∈ w.insertCalls ++ [selfHealRow catalog u] := h
            rcases List.mem_append.mp h2 with h3 | h3
            · exact Or.inl h3
            · exact Or.inr ⟨u, rfl, List.mem_singleton.mp h3⟩
          | ok db2 =>
            rw [aux_notFound_insertOk n catalog u selFaults insFault uid w db2 hsel hins] at h
            have h2 := ih catalog (some u) (selectRest selFaults) insFault uid
              { w with insertCalls := w.insertCalls ++ [selfHealRow catalog u], db := db2 } r h
            rcases h2 with h3 | ⟨u2, hu2, hr2⟩
            · have h4 : r ∈ w.insertCalls ++ [selfHealRow catalog u] := h3
              rcases List.mem_append.mp h4 with h5 | h5
              · exact Or.inl h5
              · exact Or.inr ⟨u, rfl, List.mem_singleton.mp h5⟩
            · exact Or.inr ⟨u2, hu2, hr2⟩
      | other m =>
        rw [aux_select_other n catalog gu selFaults insFault uid w m hsel] at h
        exact Or.inl h

/-- Claim C3 amended: a row created by the create-on-missing self-heal
always has a non-empty singleton `unlocked_chapters` (and every row
`fetchUserProfile` inserts is such a row); a row created by `signUp` has
a singleton when the catalog holds a first chapter for the requested
class level, and the EMPTY sequence otherwise. -/
theorem createdRows_unlockedChapters_amended :
    (∀ (catalog : List Chapter) (u : AuthUser), ∃ ch,
      (selfHealRow catalog u).unlocked_chapters = some [ch]) ∧
    (∀ (fuel : ℕ) (catalog : List Chapter) (u : AuthUser)
      (selFaults : List (Option StoreErr)) (insFault : Option StoreErr)
      (uid : String) (w : World) (r : Row),
      r ∈ (fetchUserProfile fuel catalog (some u) selFaults insFault uid w).insertCalls →
      r ∈ w.insertCalls ∨ r = selfHealRow catalog u) ∧
    (∀ (catalog : List Chapter) (email : String) (ud : PartialUser) (u : AuthUser)
      (c : Chapter), signUpFirstChapter catalog ud.class_level = some c →
      (signUpRow catalog email ud u).unlocked_chapters = some [c.id]) ∧
    (∀ (catalog : List Chapter) (email : String) (ud : PartialUser) (u : AuthUser),
      signUpFirstChapter catalog ud.class_level = none →
      (signUpRow catalog email ud u).unlocked_chapters = some []) := by
  refine ⟨?_, ?_, ?_, ?_⟩
  · intro catalog u
    cases h : firstChapterFor catalog 1 with
    | some c => exact ⟨c.id, by simp [selfHealRow, h]⟩
    | none => exact ⟨"class9_ch1", by simp [selfHealRow, h]⟩
  · intro fuel catalog u selFaults insFault uid w r h
    rcases fetch_insertRows fuel catalog (some u) selFaults insFault uid w r h with
      h2 | ⟨u2, hu2, hr2⟩
    · exact Or.inl h2
    · obtain rfl := Option.some.inj hu2
      exact Or.inr hr2
  · intro catalog email ud u c h
    simp [signUpRow, h]
  · intro catalog email ud u h
    simp [signUpRow, h]

/-- Witness for the amended C3: the self-heal row is a singleton; the
row the self-heal actually inserts on the empty table is that row; the
class-9 sign-up row is the singleton; the class-10 sign-up row is empty. -/
theorem createdRows_unlockedChapters_amended_witness :
    (∃ ch, (selfHealRow cat1 uA).unlocked_chapters = some [ch]) ∧
    selfHealRow cat1 uA ∈ (fetchUserProfile 2 cat1 (some uA) [] none "u1" w0).insertCalls ∧
    (selfHealRow cat1 uA ∈ w0.insertCalls ∨ selfHealRow cat1 uA = selfHealRow cat1 uA) ∧
    signUpFirstChapter cat9 udata9.class_level = some ⟨"class9_ch1", 9, 1⟩ ∧
    (signUpRow cat9 "s@x.com" udata9 u9).unlocked_chapters = some ["class9_ch1"] ∧
    signUpFirstChapter cat9 udata10.class_level = none ∧
    (signUpRow cat9 "s@x.com" udata10 u9).unlocked_chapters = some [] :=
  ⟨createdRows_unlockedChapters_amended.1 cat1 uA, by decide,
    createdRows_unlockedChapters_amended.2.1 2 cat1 uA [] none "u1" w0
      (selfHealRow cat1 uA) (by decide),
    by decide,
    createdRows_unlockedChapters_amended.2.2.1 cat9 "s@x.com" udata9 u9
      ⟨"class9_ch1", 9, 1⟩ (by decide),
    by decide,
    createdRows_unlockedChapters_amended.2.2.2 cat9 "s@x.com" udata10 u9 (by decide)⟩

/-- Claim C7: signing up with class_level 9 against a catalog holding
chapter class9_ch1 (class 9, order 1) inserts exactly the row with
`unlocked_chapters = ["class9_ch1"]`, `total_coins` stored as 0 and
`money` stored as 100, and no error propagates. -/
theorem signUp_class9_scenario :
    (signUp cat9 (.ok (some u9)) none 1 none [] none "s@x.com" udata9
        w0).world.insertCalls = [signUpRow cat9 "s@x.com" udata9 u9] ∧
    (signUpRow cat9 "s@x.com" udata9 u9).unlocked_chapters = some ["class9_ch1"] ∧
    (signUpRow cat9 "s@x.com" udata9 u9).total_coins = some 0 ∧
    (signUpRow cat9 "s@x.com" udata9 u9).money = some 100 ∧
    (signUp cat9 (.ok (some u9)) none 1 none [] none "s@x.com" udata9 w0).err = none := by
  decide

/-- Claim C8: when the stat-write fails, the error propagates as the
operation's error, the cached profile and the table are unchanged (no
optimistic update) and no delayed re-fetch is scheduled; with a
successful write the re-fetch IS scheduled. -/
theorem updateUserStats_writeFailure (e : StoreErr) (correct wrong money : ℚ)
    (u : AuthUser) (w : World) (hu : w.user = some u) :
    (updateUserStats (some e) correct wrong money w).err = some e ∧
    (updateUserStats (some e) correct wrong money w).world.cache = w.cache ∧
    (updateUserStats (some e) correct wrong money w).world.db = w.db ∧
    (updateUserStats (some e) correct wrong money w).refetchScheduled = false ∧
    (updateUserStats none correct wrong money w).refetchScheduled = true := by
  unfold updateUserStats
  rw [hu]
  exact ⟨rfl, rfl, rfl, rfl, rfl⟩

/-- Witness for C8 at a concrete failing write. -/
theorem updateUserStats_writeFailure_witness :
    wS.user = some uA ∧
    (updateUserStats (some (StoreErr.other "down")) 2 1 10 wS).err =
      some (StoreErr.other "down") ∧
    (updateUserStats (some (StoreErr.other "down")) 2 1 10 wS).world.cache = wS.cache ∧
    (updateUserStats (some (StoreErr.other "down")) 2 1 10 wS).world.db = wS.db ∧
    (updateUserStats (some (StoreErr.other "down")) 2 1 10 wS).refetchScheduled = false ∧
    (updateUserStats none 2 1 10 wS).refetchScheduled = true :=
  ⟨rfl, (updateUserStats_writeFailure (StoreErr.other "down") 2 1 10 uA wS rfl).1,
    (updateUserStats_writeFailure (StoreErr.other "down") 2 1 10 uA wS rfl).2.1,
    (updateUserStats_writeFailure (StoreErr.other "down") 2 1 10 uA wS rfl).2.2.1,
    (updateUserStats_writeFailure (StoreErr.other "down") 2 1 10 uA wS rfl).2.2.2.1,
    (updateUserStats_writeFailure (StoreErr.other "down") 2 1 10 uA wS rfl).2.2.2.2⟩
